import Mathlib

/-!
Verification development for the Fediverse repository's federation trust layer
(per-actor RSA keypairs, HTTP message signing, signature verification, delivery)
and for two frontend state operations (feed like-toggle, ActivityPub collection
fetching).

Sources embedded:
* `src/KEY_MANAGEMENT.md` — code snippets for the User schema pre-save hook,
  the actor endpoint, and `sendSignedRequest`.
* `src/unnamed/part_000` (FeedPage) — `handleLike`.
* `src/frontend/src/Pages/FollowersPage.js` — `fetchCollection`.

Parts of the design that the repository documents but does not implement
(inbound signature verification, the delivery queue outcome policy) are
modelled from the specification and are marked as such in their doc comments.

Modelling conventions:
* PEM key material is modelled structurally as a `Pem` value carrying the
  encoding kind and the generation seed (the entropy of
  `crypto.generateKeyPairSync`); RSA-SHA256 signing is modelled as a correct
  deterministic signature scheme over these values.
* Dates are modelled as epoch milliseconds (`Int`); the `Date` header carries
  that value, rendered with `toString` inside the canonical string.
* An activity is represented by its JSON serialization (a `String`): the code
  digests `JSON.stringify(activity)` and axios posts the same serialization.
-/

namespace Fediverse

/-- A PEM-encoded key, modelled structurally: the encoding kind
(`"spki-pem"` / `"pkcs8-pem"`) and the generation seed standing for the
entropy consumed by `crypto.generateKeyPairSync`. -/
structure Pem where
  kind : String
  seed : Nat
deriving DecidableEq

structure KeyEncoding where
  type : String
  format : String
deriving DecidableEq

/-- Options record passed to `crypto.generateKeyPairSync("rsa", …)`. -/
structure RsaKeyGenOptions where
  modulusLength : Nat
  publicKeyEncoding : KeyEncoding
  privateKeyEncoding : KeyEncoding
deriving DecidableEq

structure KeyPairPem where
  publicKey : Pem
  privateKey : Pem
deriving DecidableEq

/-- Embeds `crypto.generateKeyPairSync("rsa", opts)`: produces the keypair determined
by the entropy `seed`, with the PEM encodings requested in `opts`. -/
def generateKeyPairSync (opts : RsaKeyGenOptions) (seed : Nat) : KeyPairPem :=
  { publicKey := { kind := opts.publicKeyEncoding.type ++ "-" ++ opts.publicKeyEncoding.format
                   seed := seed }
    privateKey := { kind := opts.privateKeyEncoding.type ++ "-" ++ opts.privateKeyEncoding.format
                    seed := seed } }

/-- An RSA-SHA256 signature value, modelled as the signing key's seed paired
with the signed message (a correct, deterministic signature scheme). -/
structure RsaSignature where
  signerSeed : Nat
  message : String
deriving DecidableEq

/-- Embeds `crypto.createSign("rsa-sha256")` … `signer.sign(privateKey)`. -/
def rsaSha256Sign (priv : Pem) (msg : String) : RsaSignature :=
  { signerSeed := priv.seed, message := msg }

/-- RSA-SHA256 verification against a public key: in this model a signature
verifies exactly when it was produced by the matching private key (same seed)
over the same message. -/
def rsaSha256Verify (pub : Pem) (msg : String) (sig : RsaSignature) : Bool :=
  decide (sig = { signerSeed := pub.seed, message := msg })

/-- Embeds `crypto.createHash("sha256").update(body).digest("base64")`: modelled as an
injective deterministic function of the body bytes. -/
def sha256Base64 (body : String) : String :=
  "sha256b64:" ++ body

/-- The `User` mongoose document (src/KEY_MANAGEMENT.md, Database Schema).
`password` and `privateKey` are declared with `select: false`. -/
structure User where
  username : String
  password : Option String
  email : String
  actorUrl : String
  publicKey : Option Pem
  privateKey : Option Pem
  followers : List String
  following : List String
deriving DecidableEq

/-- The shape of a default query result (`User.findOne(...)` with no `select`):
fields marked `select: false` (`password`, `privateKey`) are absent. -/
structure UserDefaultView where
  username : String
  email : String
  actorUrl : String
  publicKey : Option Pem
  followers : List String
  following : List String
deriving DecidableEq

/-- Default actor read: `User.findOne({...})` — projects away the
`select: false` fields; the private key is structurally absent. -/
def findOneDefault (u : User) : UserDefaultView :=
  { username := u.username
    email := u.email
    actorUrl := u.actorUrl
    publicKey := u.publicKey
    followers := u.followers
    following := u.following }

/-- The shape of an elevated query result
(`User.findOne({...}).select("+privateKey")`). -/
structure UserElevatedView where
  username : String
  email : String
  actorUrl : String
  publicKey : Option Pem
  privateKey : Option Pem
  followers : List String
  following : List String
deriving DecidableEq

/-- Elevated actor read: `User.findOne({...}).select("+privateKey")` — the
explicit, separately-named accessor that additionally includes the private
key. Used only by the signing path (`sendSignedRequest`). -/
def findOneWithPrivateKey (u : User) : UserElevatedView :=
  { username := u.username
    email := u.email
    actorUrl := u.actorUrl
    publicKey := u.publicKey
    privateKey := u.privateKey
    followers := u.followers
    following := u.following }

/-- The `publicKey` object of the ActivityPub Actor document. -/
structure ActorPublicKeyDoc where
  id : String
  owner : String
  publicKeyPem : Option Pem
deriving DecidableEq

/-- The ActivityPub Actor document returned by `GET /users/:username`. -/
structure ActorDocument where
  context : List String
  id : String
  type : String
  preferredUsername : String
  publicKey : ActorPublicKeyDoc
deriving DecidableEq

/-- Embeds `exports.actor` (src/KEY_MANAGEMENT.md, activityPubController.js): builds
the Actor document from a default read (`User.findOne({ username })`, no
`select`), exposing only the public key. -/
def actorEndpoint (baseUrl : String) (u : User) : ActorDocument :=
  let user := findOneDefault u
  { context := ["https://www.w3.org/ns/activitystreams"]
    id := baseUrl ++ "/users/" ++ user.username
    type := "Person"
    preferredUsername := user.username
    publicKey :=
      { id := baseUrl ++ "/users/" ++ user.username ++ "#main-key"
        owner := baseUrl ++ "/users/" ++ user.username
        publicKeyPem := user.publicKey } }

/-- The options the pre-save hook passes to `crypto.generateKeyPairSync`. -/
def preSaveKeyOptions : RsaKeyGenOptions :=
  { modulusLength := 2048
    publicKeyEncoding := { type := "spki", format := "pem" }
    privateKeyEncoding := { type := "pkcs8", format := "pem" } }

/-- Embeds the `userSchema.pre("save")` hook (src/KEY_MANAGEMENT.md): if either key is
missing (`!this.publicKey || !this.privateKey`; a JS-falsy empty PEM string is
subsumed by `none` in this structural model), generate a fresh 2048-bit RSA
keypair and store both halves; otherwise leave the document unchanged.
`seed` stands for the entropy the generation consumes. -/
def userPreSave (seed : Nat) (u : User) : User :=
  if u.publicKey.isNone || u.privateKey.isNone then
    let kp := generateKeyPairSync preSaveKeyOptions seed
    { u with publicKey := some kp.publicKey, privateKey := some kp.privateKey }
  else u

/-- The canonical signing string built by `sendSignedRequest`
(src/KEY_MANAGEMENT.md): one header per line, in the fixed order
`(request-target)`, `host`, `date`, `digest`. The source hard-codes the
method `post`; it is a parameter here. -/
def canonicalString (method path host date digest : String) : String :=
  "(request-target): " ++ method ++ " " ++ path ++ "\n" ++
  "host: " ++ host ++ "\n" ++
  "date: " ++ date ++ "\n" ++
  "digest: SHA-256=" ++ digest

/-- Modelled from the spec: the verifier's reconstruction of the canonical
string (§4.3 step 6, "the same ordered-header algorithm as §4.2"); written
independently of `canonicalString` so their agreement is a theorem. -/
def verifierCanonicalString (method path host date digest : String) : String :=
  String.intercalate "\n"
    ["(request-target): " ++ method ++ " " ++ path,
     "host: " ++ host,
     "date: " ++ date,
     "digest: SHA-256=" ++ digest]

/-- The ordered list of signed header names. -/
def signedHeaderNames : List String :=
  ["(request-target)", "host", "date", "digest"]

/-- The `keyId` of a local user: `BASE_URL/users/username#main-key`. -/
def keyIdOf (baseUrl username : String) : String :=
  baseUrl ++ "/users/" ++ username ++ "#main-key"

/-- A parsed `Signature` header value:
`keyId="…",algorithm="rsa-sha256",headers="…",signature="…"`. -/
structure SignatureHeaderVal where
  keyId : String
  algorithm : String
  headers : List String
  signature : RsaSignature
deriving DecidableEq

/-- An outbound signed request as POSTed by `sendSignedRequest`: the target,
the headers that are sent, and the exact body bytes delivered. -/
structure SignedRequest where
  method : String
  host : String
  path : String
  dateMs : Int
  digestHeader : String
  signatureHeader : SignatureHeaderVal
  body : String
deriving DecidableEq

/-- Embeds `sendSignedRequest` (src/KEY_MANAGEMENT.md, backend/utils): fetches the
actor through the elevated read path, throws when the private key is missing,
digests the serialized activity, signs the canonical string, and POSTs the
activity with the signed header set. The snippet elides the literal `headers`
object; its `Digest`/`Signature` header construction is modelled from the
spec (§4.2: `Digest: SHA-256=<digest>`, `buildHeader`). `host`/`path` are the
`new URL(inboxUrl)` components; `dateMs` is the `new Date()` timestamp. -/
def sendSignedRequest (baseUrl : String) (u : User) (host path activity : String)
    (dateMs : Int) : Except String SignedRequest :=
  let user := findOneWithPrivateKey u
  match user.privateKey with
  | none => Except.error ("Private key not found for user: " ++ user.username)
  | some priv =>
    let digest := sha256Base64 activity
    let canonical := canonicalString "post" path host (toString dateMs) digest
    Except.ok
      { method := "post"
        host := host
        path := path
        dateMs := dateMs
        digestHeader := "SHA-256=" ++ digest
        signatureHeader :=
          { keyId := keyIdOf baseUrl user.username
            algorithm := "rsa-sha256"
            headers := signedHeaderNames
            signature := rsaSha256Sign priv canonical }
        body := activity }

/-- Verification failure taxonomy (spec §7). -/
inductive VerifyError where
  | malformedSignature
  | staleRequest
  | digestMismatch
  | resolutionError
  | invalidSignature
deriving DecidableEq

/-- An inbound inbox request as seen by the verifier: `none` in a header field
models a missing or unparsable header. -/
structure InboundRequest where
  method : String
  path : String
  host : String
  signatureHeader : Option SignatureHeaderVal
  dateMs : Option Int
  digestHeader : Option String
  body : String
deriving DecidableEq

/-- Allowed clock skew for the `Date` header: 5 minutes, in milliseconds. -/
def clockSkewLimitMs : Nat := 5 * 60 * 1000

/-- Modelled from the spec: `SignatureVerifier` (§4.3) — the inbound signature
verification the repository documents as not yet implemented. Steps in order:
parse the `Signature` header (missing/malformed → `malformedSignature`);
require the signed headers to include `(request-target)`, `host`, `date`,
`digest`; reject a `Date` differing from the current time by more than
5 minutes (`staleRequest`); recompute and compare the body digest
(`digestMismatch`); resolve the public key from `keyId` via the resolver
collaborator (failure → `resolutionError`, fail-closed); reconstruct the
canonical string and check the signature (`invalidSignature`). On success,
returns the verified signer identity (its `keyId`). -/
def verifyInbound (resolve : String → Option Pem) (nowMs : Int)
    (r : InboundRequest) : Except VerifyError String :=
  match r.signatureHeader with
  | none => Except.error VerifyError.malformedSignature
  | some sh =>
    if !(signedHeaderNames.all (fun h => sh.headers.contains h)) then
      Except.error VerifyError.malformedSignature
    else
      match r.dateMs with
      | none => Except.error VerifyError.malformedSignature
      | some d =>
        if clockSkewLimitMs < (nowMs - d).natAbs then
          Except.error VerifyError.staleRequest
        else
          match r.digestHeader with
          | none => Except.error VerifyError.digestMismatch
          | some dg =>
            if dg ≠ "SHA-256=" ++ sha256Base64 r.body then
              Except.error VerifyError.digestMismatch
            else
              match resolve sh.keyId with
              | none => Except.error VerifyError.resolutionError
              | some pub =>
                let canonical :=
                  verifierCanonicalString r.method r.path r.host (toString d)
                    (sha256Base64 r.body)
                if rsaSha256Verify pub canonical sh.signature then
                  Except.ok sh.keyId
                else
                  Except.error VerifyError.invalidSignature

/-- Delivery of a signed request to the target inbox: the inbound request the
receiver sees carries exactly the method, target, headers and body that
`sendSignedRequest` produced. -/
def deliver (sr : SignedRequest) : InboundRequest :=
  { method := sr.method
    path := sr.path
    host := sr.host
    signatureHeader := some sr.signatureHeader
    dateMs := some sr.dateMs
    digestHeader := some sr.digestHeader
    body := sr.body }

/-- Outcome of handing an inbound activity to the inbox endpoint. -/
inductive InboxOutcome where
  | processed (activity : String) (followerAdded : Bool)
  | rejected (status : Nat)
deriving DecidableEq

/-- The current inbox handler, embedded from the "Incoming Activities" flow of
src/KEY_MANAGEMENT.md (`/users/alice/inbox`): it receives the activity, does
NOT verify the signature (the flow marks verification as TODO and the
Security Considerations section lists it as not implemented), adds the sender
to the followers list and replies with a signed Accept — for every request,
verified or not. -/
def currentInboxHandler (r : InboundRequest) : InboxOutcome :=
  InboxOutcome.processed r.body true

/-- A concrete unsigned Follow activity POSTed to a local inbox: no
`Signature`, `Date` or `Digest` header at all. -/
def unsignedFollowRequest : InboundRequest :=
  { method := "post"
    path := "/users/alice/inbox"
    host := "localhost"
    signatureHeader := none
    dateMs := none
    digestHeader := none
    body := "follow-activity-from-bob" }

/-- DeliveryTask status (spec §3). -/
inductive DeliveryStatus where
  | pending
  | inFlight
  | delivered
  | retryScheduled
  | abandoned
deriving DecidableEq

/-- The observable outcome of one delivery attempt (`axios.post` to the target
inbox): an HTTP response with a status code, a network error, or a timeout. -/
inductive AttemptOutcome where
  | response (code : Nat)
  | networkError
  | timeout
deriving DecidableEq

/-- A DeliveryTask (spec §3). -/
structure DeliveryTask where
  id : Nat
  actorId : String
  targetInbox : String
  activityPayload : String
  attempt : Nat
  nextAttemptAt : Int
  status : DeliveryStatus
deriving DecidableEq

def is2xx (code : Nat) : Bool :=
  200 ≤ code && code < 300

/-- Transient HTTP statuses per the outcome policy: 5xx or 429. -/
def isTransientCode (code : Nat) : Bool :=
  (500 ≤ code && code < 600) || code == 429

/-- Modelled from the spec: exponential backoff, `base × 2^attempt`, capped. -/
def backoffMs (base cap attempt : Nat) : Nat :=
  min (base * 2 ^ attempt) cap

/-- Modelled from the spec: on a transient failure, bump the attempt count and
either schedule a retry with exponential backoff or, once the maximum attempt
count is reached, abandon the task. -/
def retryOrAbandon (maxAttempts base cap : Nat) (nowMs : Int)
    (t : DeliveryTask) : DeliveryTask :=
  if maxAttempts ≤ t.attempt + 1 then
    { t with attempt := t.attempt + 1, status := DeliveryStatus.abandoned }
  else
    { t with attempt := t.attempt + 1
             status := DeliveryStatus.retryScheduled
             nextAttemptAt := nowMs + (backoffMs base cap (t.attempt + 1) : Int) }

/-- Modelled from the spec: the DeliveryQueue outcome policy (§4.5), absent
from the source (the documented `sendSignedRequest` POSTs once with no retry
handling). 2xx → `delivered`; network error, timeout, 5xx or 429 →
retry with exponential backoff until the maximum attempt count, then
`abandoned`; any other response → immediately `abandoned`. -/
def applyDeliveryOutcome (maxAttempts base cap : Nat) (nowMs : Int)
    (t : DeliveryTask) (o : AttemptOutcome) : DeliveryTask :=
  match o with
  | AttemptOutcome.networkError => retryOrAbandon maxAttempts base cap nowMs t
  | AttemptOutcome.timeout => retryOrAbandon maxAttempts base cap nowMs t
  | AttemptOutcome.response code =>
    if is2xx code then { t with status := DeliveryStatus.delivered }
    else if isTransientCode code then retryOrAbandon maxAttempts base cap nowMs t
    else { t with status := DeliveryStatus.abandoned }

/-- A feed post as handled by FeedPage (src/unnamed/part_000): `_id`, the
`likes` array (possibly absent), and the further fields the page renders. -/
structure Post where
  _id : String
  author : Option String
  caption : Option String
  image : Option String
  imageUrl : Option String
  createdAt : Option String
  likes : Option (List String)
deriving DecidableEq

/-- The optimistic state update of `handleLike` (src/unnamed/part_000,
`setFeed(prevFeed => prevFeed.map(...))`): the post whose `_id` equals
`postId` has `userId` toggled in its `likes` array (`likes || []`; removed by
`filter` when present, appended when absent); every other post is returned
unchanged. -/
def handleLikeSetFeed (userId postId : String) (feed : List Post) : List Post :=
  feed.map (fun post =>
    if post._id = postId then
      let likesArray := (post.likes).getD []
      let isLiked := likesArray.contains userId
      let newLikes :=
        if isLiked then likesArray.filter (fun i => i ≠ userId)
        else likesArray ++ [userId]
      { post with likes := some newLikes }
    else post)

/-- A JSON value, for the ActivityPub collection handling of FollowersPage.
JS `undefined` is conflated with `null` (both are falsy and both end the
`||` chains of the source the same way). -/
inductive Js where
  | null
  | bool (b : Bool)
  | num (n : Int)
  | str (s : String)
  | arr (xs : List Js)
  | obj (fields : List (String × Js))

/-- The JS truthiness predicate: `null`, `false`, `0` and `""` are falsy; every array and
object is truthy. -/
def truthy : Js → Bool
  | Js.null => false
  | Js.bool b => b
  | Js.num n => !(n == 0)
  | Js.str s => !s.isEmpty
  | Js.arr _ => true
  | Js.obj _ => true

/-- The JS disjunction `a || b`: `a` when truthy, else `b`. -/
def jsOr (a b : Js) : Js :=
  if truthy a then a else b

/-- The JS property access `v.k`: a missing key, or access on a non-object,
yields `undefined` (modelled as `Js.null`). -/
def getField : Js → String → Js
  | Js.obj fields, k => (fields.lookup k).getD Js.null
  | _, _ => Js.null

def isNullJs : Js → Bool
  | Js.null => true
  | _ => false

def isStrJs : Js → Bool
  | Js.str _ => true
  | _ => false

/-- Embeds `normalizeItem` (FollowersPage.js): strings pass through; for a non-null
value of `typeof === "object"` (JS arrays included) return
`item.id || item.url || item.href || null`; everything else maps to `null`. -/
def normalizeItem (item : Js) : Js :=
  match item with
  | Js.str _ => item
  | Js.obj _ =>
      jsOr (getField item "id")
        (jsOr (getField item "url") (jsOr (getField item "href") Js.null))
  | Js.arr _ =>
      jsOr (getField item "id")
        (jsOr (getField item "url") (jsOr (getField item "href") Js.null))
  | _ => Js.null

/-- The result of `fetchCollection`: the normalized items and the reported
total (a JS value: the source passes `totalItems` through untouched). -/
structure CollectionResult where
  items : List Js
  total : Js

/-- The response-shape dispatch of `fetchCollection`: `orderedItems`, then
`first?.orderedItems`, then `items`, then a bare array; otherwise the
initial `[]`/`0`. Returns the selected items value and the reported total. -/
def fetchCollectionBranch (d : Js) : Js × Js :=
  if truthy (getField d "orderedItems") then
    (getField d "orderedItems", jsOr (getField d "totalItems") (Js.num 0))
  else if truthy (getField (getField d "first") "orderedItems") then
    (getField (getField d "first") "orderedItems",
     jsOr (getField (getField d "first") "totalItems")
       (jsOr (getField d "totalItems") (Js.num 0)))
  else if truthy (getField d "items") then
    (getField d "items", jsOr (getField d "totalItems") (Js.num 0))
  else
    match d with
    | Js.arr xs => (Js.arr xs, Js.num (xs.length : Int))
    | _ => (Js.arr [], Js.num 0)

/-- Embeds `fetchCollection` (FollowersPage.js). `none` models an `axios.get` failure
(the catch branch returns `{items: [], total: 0}`). On a response, the items
of the selected shape are normalized and the `null`s filtered out; if the
selected `orderedItems`/`items` value is truthy but not an array, the
`.map` call throws a TypeError which the same catch turns into
`{items: [], total: 0}`. -/
def fetchCollection (res : Option Js) : CollectionResult :=
  match res with
  | none => { items := [], total := Js.num 0 }
  | some d =>
    match fetchCollectionBranch d with
    | (Js.arr xs, total) =>
        { items := (xs.map normalizeItem).filter (fun v => !(isNullJs v))
          total := total }
    | _ => { items := [], total := Js.num 0 }

/-- The concrete response refuting the all-items-are-strings claim: a
collection whose single ordered item is an actor object with a numeric `id`. -/
def numericIdCollection : Js :=
  Js.obj [("orderedItems", Js.arr [Js.obj [("id", Js.num 42)]])]

/-- A concrete collection response with one string item. -/
def stringItemCollection : Js :=
  Js.obj [("items", Js.arr [Js.str "https://remote.example/users/bob"])]

/-- A freshly registered user, before the pre-save hook has run. -/
def sampleUserNoKeys : User :=
  { username := "alice"
    password := some "hashed"
    email := "alice@example.com"
    actorUrl := "https://local.example/users/alice"
    publicKey := none
    privateKey := none
    followers := []
    following := [] }

/-- The state of `sampleUserNoKeys` after key generation with entropy 7. -/
def sampleUserWithKeys : User :=
  { sampleUserNoKeys with
      publicKey := some (generateKeyPairSync preSaveKeyOptions 7).publicKey
      privateKey := some (generateKeyPairSync preSaveKeyOptions 7).privateKey }

/-- A resolver that returns the public key of `sampleUserWithKeys` for every keyId. -/
def sampleResolve : String → Option Pem :=
  fun _ => some (generateKeyPairSync preSaveKeyOptions 7).publicKey

/-- A concrete pending delivery task. -/
def sampleTask : DeliveryTask :=
  { id := 1
    actorId := "alice"
    targetInbox := "https://remote.example/users/bob/inbox"
    activityPayload := "follow-activity"
    attempt := 0
    nextAttemptAt := 0
    status := DeliveryStatus.pending }

/-- A concrete two-post feed: the first post is liked by user `u1`, the
second is not. -/
def sampleFeed : List Post :=
  [{ _id := "p1", author := some "alice", caption := some "first"
     image := none, imageUrl := none, createdAt := some "2026-01-01"
     likes := some ["u1", "u2"] },
   { _id := "p2", author := some "carol", caption := some "second"
     image := some "img.png", imageUrl := none, createdAt := some "2026-01-02"
     likes := none }]

/-- The concrete signed request `sendSignedRequest` produces for
`sampleUserWithKeys` posting `"follow-activity"` to bob's inbox at date 0. -/
def sampleSignedRequest : SignedRequest :=
  { method := "post"
    host := "remote.example"
    path := "/users/bob/inbox"
    dateMs := 0
    digestHeader := "SHA-256=" ++ sha256Base64 "follow-activity"
    signatureHeader :=
      { keyId := keyIdOf "https://local.example" "alice"
        algorithm := "rsa-sha256"
        headers := signedHeaderNames
        signature :=
          rsaSha256Sign (generateKeyPairSync preSaveKeyOptions 7).privateKey
            (canonicalString "post" "/users/bob/inbox" "remote.example"
              (toString (0 : Int)) (sha256Base64 "follow-activity")) }
    body := "follow-activity" }

/-! ## Helper lemmas -/

/-- The signer's canonical string and the verifier's independent
reconstruction agree on all inputs. -/
theorem canonical_agree (method path host date digest : String) :
    canonicalString method path host date digest =
      verifierCanonicalString method path host date digest := by
  apply String.ext
  simp [canonicalString, verifierCanonicalString, String.intercalate,
    String.intercalate.go, String.data_append]

/-- Function `jsOr` returns either its second argument or a truthy value. -/
theorem jsOr_eq_or_truthy (a b : Js) : jsOr a b = b ∨ truthy (jsOr a b) = true := by
  unfold jsOr
  split
  · rename_i ht
    exact Or.inr ht
  · exact Or.inl rfl

/-- A non-null `normalizeItem` result is a string or a truthy value. -/
theorem normalizeItem_nonnull (x : Js) (hn : isNullJs (normalizeItem x) = false) :
    isStrJs (normalizeItem x) = true ∨ truthy (normalizeItem x) = true := by
  cases x with
  | str s => exact Or.inl rfl
  | null => simp [normalizeItem, isNullJs] at hn
  | bool b => simp [normalizeItem, isNullJs] at hn
  | num n => simp [normalizeItem, isNullJs] at hn
  | arr xs =>
    refine Or.inr ?_
    rcases jsOr_eq_or_truthy (getField (Js.arr xs) "id")
        (jsOr (getField (Js.arr xs) "url") (jsOr (getField (Js.arr xs) "href") Js.null)) with h1 | h1
    · rw [normalizeItem] at hn ⊢
      rw [h1] at hn ⊢
      rcases jsOr_eq_or_truthy (getField (Js.arr xs) "url")
          (jsOr (getField (Js.arr xs) "href") Js.null) with h2 | h2
      · rw [h2] at hn ⊢
        rcases jsOr_eq_or_truthy (getField (Js.arr xs) "href") Js.null with h3 | h3
        · rw [h3] at hn
          simp [isNullJs] at hn
        · exact h3
      · exact h2
    · rw [normalizeItem]
      exact h1
  | obj fields =>
    refine Or.inr ?_
    rcases jsOr_eq_or_truthy (getField (Js.obj fields) "id")
        (jsOr (getField (Js.obj fields) "url") (jsOr (getField (Js.obj fields) "href") Js.null)) with h1 | h1
    · rw [normalizeItem] at hn ⊢
      rw [h1] at hn ⊢
      rcases jsOr_eq_or_truthy (getField (Js.obj fields) "url")
          (jsOr (getField (Js.obj fields) "href") Js.null) with h2 | h2
      · rw [h2] at hn ⊢
        rcases jsOr_eq_or_truthy (getField (Js.obj fields) "href") Js.null with h3 | h3
        · rw [h3] at hn
          simp [isNullJs] at hn
        · exact h3
      · exact h2
    · rw [normalizeItem]
      exact h1

/-- The signed request that `sendSignedRequest` produces for a user whose
keypair was generated with entropy `seed`. -/
theorem sendSignedRequest_ok (baseUrl : String) (seed : Nat) (u : User)
    (host path activity : String) (dateMs : Int)
    (hpriv : u.privateKey = some (generateKeyPairSync preSaveKeyOptions seed).privateKey) :
    sendSignedRequest baseUrl u host path activity dateMs = Except.ok
      { method := "post", host := host, path := path, dateMs := dateMs
        digestHeader := "SHA-256=" ++ sha256Base64 activity
        signatureHeader :=
          { keyId := keyIdOf baseUrl u.username
            algorithm := "rsa-sha256"
            headers := signedHeaderNames
            signature :=
              rsaSha256Sign (generateKeyPairSync preSaveKeyOptions seed).privateKey
                (canonicalString "post" path host (toString dateMs) (sha256Base64 activity)) }
        body := activity } := by
  simp only [sendSignedRequest, findOneWithPrivateKey]
  rw [hpriv]

/-- Delivering the signed request of a seed-`seed` user verifies successfully
whenever the resolver returns the matching public key and the date is within
the allowed skew. -/
theorem sendSigned_verify_roundtrip (baseUrl : String) (seed : Nat) (u : User)
    (host path activity : String) (dateMs nowMs : Int)
    (resolve : String → Option Pem)
    (hpriv : u.privateKey = some (generateKeyPairSync preSaveKeyOptions seed).privateKey)
    (hres : resolve (keyIdOf baseUrl u.username) =
      some (generateKeyPairSync preSaveKeyOptions seed).publicKey)
    (hskew : (nowMs - dateMs).natAbs ≤ clockSkewLimitMs) :
    ∃ sr, sendSignedRequest baseUrl u host path activity dateMs = Except.ok sr ∧
      verifyInbound resolve nowMs (deliver sr) =
        Except.ok (keyIdOf baseUrl u.username) := by
  refine ⟨_, sendSignedRequest_ok baseUrl seed u host path activity dateMs hpriv, ?_⟩
  have hlt : ¬ (clockSkewLimitMs < (nowMs - dateMs).natAbs) := Nat.not_lt.mpr hskew
  simp only [verifyInbound, deliver, hres, hlt, if_false,
    ← canonical_agree, rsaSha256Verify, rsaSha256Sign, generateKeyPairSync]
  simp [signedHeaderNames]

/-! ## Claims -/

/-- Claim C1: for every actor, the private key PEM is absent from every default
actor-read result and from the Actor document — expressed as non-interference:
neither observable depends on the `privateKey` field at all — while the
explicit, separately-named elevated accessor (the one the signing path uses)
does return it. -/
theorem privateKey_absent_from_default_reads :
    ∀ (u : User) (pk : Option Pem) (baseUrl : String),
      findOneDefault { u with privateKey := pk } = findOneDefault u ∧
      actorEndpoint baseUrl { u with privateKey := pk } = actorEndpoint baseUrl u ∧
      (findOneWithPrivateKey u).privateKey = u.privateKey := by
  intro u pk baseUrl
  exact ⟨rfl, rfl, rfl⟩

/-- Claim C6: the canonical string is the deterministic concatenation of one header
per line in the fixed order `(request-target)`, `host`, `date`, `digest`, and
the signer's construction coincides with the verifier's reconstruction on all
inputs. -/
theorem canonicalString_deterministic_fixed_order :
    ∀ method path host date digest : String,
      canonicalString method path host date digest =
        verifierCanonicalString method path host date digest ∧
      canonicalString method path host date digest =
        String.intercalate "\n"
          ["(request-target): " ++ method ++ " " ++ path,
           "host: " ++ host,
           "date: " ++ date,
           "digest: SHA-256=" ++ digest] := by
  intro method path host date digest
  refine ⟨canonical_agree method path host date digest, ?_⟩
  apply String.ext
  simp [canonicalString, String.intercalate, String.intercalate.go,
    String.data_append]

/-- Claim C7: key generation is idempotent — the pre-save hook creates a 2048-bit
RSA keypair (SPKI/PEM public half, PKCS8/PEM private half) when a key is
missing, is a no-op when the keypair already exists, and running it twice
yields the same stored keys as running it once. -/
theorem userPreSave_idempotent :
    ∀ (seed seed2 : Nat) (u : User),
      ((u.publicKey.isNone || u.privateKey.isNone) = true →
        userPreSave seed u =
          { u with
              publicKey := some (generateKeyPairSync preSaveKeyOptions seed).publicKey
              privateKey := some (generateKeyPairSync preSaveKeyOptions seed).privateKey }) ∧
      ((u.publicKey.isNone || u.privateKey.isNone) = false →
        userPreSave seed u = u) ∧
      userPreSave seed2 (userPreSave seed u) = userPreSave seed u ∧
      preSaveKeyOptions.modulusLength = 2048 ∧
      preSaveKeyOptions.publicKeyEncoding = { type := "spki", format := "pem" } ∧
      preSaveKeyOptions.privateKeyEncoding = { type := "pkcs8", format := "pem" } := by
  intro seed seed2 u
  refine ⟨?_, ?_, ?_, rfl, rfl, rfl⟩
  · intro hc
    simp [userPreSave, hc]
  · intro hc
    simp [userPreSave, hc]
  · by_cases hc : (u.publicKey.isNone || u.privateKey.isNone) = true
    · simp [userPreSave, hc]
    · simp at hc
      simp [userPreSave, hc]

/-- Witness for C7 at a concrete freshly registered user. -/
theorem userPreSave_idempotent_witness :
    userPreSave 1 sampleUserNoKeys =
      { sampleUserNoKeys with
          publicKey := some (generateKeyPairSync preSaveKeyOptions 1).publicKey
          privateKey := some (generateKeyPairSync preSaveKeyOptions 1).privateKey } ∧
    userPreSave 2 (userPreSave 1 sampleUserNoKeys) = userPreSave 1 sampleUserNoKeys := by
  exact ⟨(userPreSave_idempotent 1 2 sampleUserNoKeys).1 rfl,
    (userPreSave_idempotent 1 2 sampleUserNoKeys).2.2.1⟩

/-- Claim C3 (code-bug evidence): an unsigned Follow request fails verification as
specified (`malformedSignature`), yet the repository's current inbox handler
still processes it — it adds the follower without any verification, instead
of rejecting with 401/403 and leaving state untouched. -/
theorem inbox_processes_unverified_activity :
    verifyInbound (fun _ => none) 0 unsignedFollowRequest =
      Except.error VerifyError.malformedSignature ∧
    currentInboxHandler unsignedFollowRequest =
      InboxOutcome.processed "follow-activity-from-bob" true := by
  exact ⟨rfl, rfl⟩

/-- Claim C10 (counterexample): `fetchCollection` can return a non-string item —
for a collection whose ordered item is an actor object with numeric `id` 42,
the returned items list is `[42]`, which is not a string. -/
theorem fetchCollection_returns_nonstring_item :
    (fetchCollection (some numericIdCollection)).items = [Js.num 42] ∧
    isStrJs (Js.num 42) = false ∧
    isNullJs (Js.num 42) = false := by
  exact ⟨rfl, rfl, rfl⟩

/-- Claim C10 (amended): `fetchCollection` is total at its interface — a fetch
error yields `{items: [], total: 0}` — and every element of the returned
items list is non-null: string items are passed through unchanged and object
items are mapped to the first truthy of their `id`, `url`, `href` fields
(which need not be a string); everything else is filtered out. -/
theorem fetchCollection_total_items_nonnull :
    fetchCollection none = { items := [], total := Js.num 0 } ∧
    ∀ (d : Js) (v : Js), v ∈ (fetchCollection (some d)).items →
      isNullJs v = false ∧ (isStrJs v = true ∨ truthy v = true) := by
  refine ⟨rfl, ?_⟩
  intro d v hv
  simp only [fetchCollection] at hv
  rcases hb : fetchCollectionBranch d with ⟨itemsJs, total⟩
  rw [hb] at hv
  cases itemsJs with
  | arr xs =>
    simp only [List.mem_filter, List.mem_map] at hv
    obtain ⟨⟨x, _, hx⟩, hnn⟩ := hv
    have hnull : isNullJs v = false := by
      cases hnv : isNullJs v
      · rfl
      · rw [hnv] at hnn
        simp at hnn
    refine ⟨hnull, ?_⟩
    rw [← hx] at hnull ⊢
    exact normalizeItem_nonnull x hnull
  | null => simp at hv
  | bool b => simp at hv
  | num n => simp at hv
  | str s => simp at hv
  | obj fields => simp at hv

/-- Claim C2: round-trip — for every actor with a generated keypair and every valid
(path, body, date) combination of an inbox POST (the only request kind the
signer produces), the request signed by the signer verifies successfully via
the verifier against that actor's public key, provided the resolver hands the
verifier the actor's genuine public key and the date is within the allowed
clock skew. -/
theorem sign_then_verify_roundtrip :
    ∀ (baseUrl : String) (seed : Nat) (u : User) (host path activity : String)
      (dateMs nowMs : Int) (resolve : String → Option Pem),
      u.privateKey = some (generateKeyPairSync preSaveKeyOptions seed).privateKey →
      resolve (keyIdOf baseUrl u.username) =
        some (generateKeyPairSync preSaveKeyOptions seed).publicKey →
      (nowMs - dateMs).natAbs ≤ clockSkewLimitMs →
      ∃ sr, sendSignedRequest baseUrl u host path activity dateMs = Except.ok sr ∧
        verifyInbound resolve nowMs (deliver sr) =
          Except.ok (keyIdOf baseUrl u.username) := by
  intro baseUrl seed u host path activity dateMs nowMs resolve hpriv hres hskew
  exact sendSigned_verify_roundtrip baseUrl seed u host path activity dateMs nowMs
    resolve hpriv hres hskew

/-- Witness for C2 at a concrete user, activity and clock. -/
theorem sign_then_verify_roundtrip_witness :
    ∃ sr, sendSignedRequest "https://local.example" sampleUserWithKeys
        "remote.example" "/users/bob/inbox" "follow-activity" 1000 = Except.ok sr ∧
      verifyInbound sampleResolve 2000 (deliver sr) =
        Except.ok (keyIdOf "https://local.example" sampleUserWithKeys.username) :=
  sign_then_verify_roundtrip "https://local.example" 7 sampleUserWithKeys
    "remote.example" "/users/bob/inbox" "follow-activity" 1000 2000 sampleResolve
    rfl rfl (by decide)

/-- Claim C4: the Digest value signed and sent with every outbound request is
`base64(SHA-256(rawBody))` of the exact body bytes POSTed, transmitted as a
`Digest: SHA-256=<digest>` header whose name is among the signed headers, and
the signature covers the canonical string containing that digest — binding
the signature to the exact body bytes delivered. -/
theorem digest_binds_exact_body :
    ∀ (baseUrl : String) (u : User) (host path activity : String) (dateMs : Int)
      (sr : SignedRequest),
      sendSignedRequest baseUrl u host path activity dateMs = Except.ok sr →
      sr.body = activity ∧
      sr.digestHeader = "SHA-256=" ++ sha256Base64 sr.body ∧
      "digest" ∈ sr.signatureHeader.headers ∧
      ∀ priv : Pem, u.privateKey = some priv →
        sr.signatureHeader.signature =
          rsaSha256Sign priv
            (canonicalString "post" path host (toString dateMs)
              (sha256Base64 activity)) := by
  intro baseUrl u host path activity dateMs sr hok
  cases hk : u.privateKey with
  | none =>
    simp only [sendSignedRequest, findOneWithPrivateKey] at hok
    rw [hk] at hok
    exact absurd hok (by simp)
  | some priv =>
    simp only [sendSignedRequest, findOneWithPrivateKey] at hok
    rw [hk] at hok
    simp only [Except.ok.injEq] at hok
    subst hok
    refine ⟨rfl, rfl, by simp [signedHeaderNames], ?_⟩
    intro priv2 hpriv2
    have hp : priv = priv2 := Option.some.inj hpriv2
    rw [hp]

/-- Witness for C4 at a concrete signed request. -/
theorem digest_binds_exact_body_witness :
    sampleSignedRequest.body = "follow-activity" ∧
    sampleSignedRequest.digestHeader =
      "SHA-256=" ++ sha256Base64 sampleSignedRequest.body ∧
    "digest" ∈ sampleSignedRequest.signatureHeader.headers ∧
    ∀ priv : Pem, sampleUserWithKeys.privateKey = some priv →
      sampleSignedRequest.signatureHeader.signature =
        rsaSha256Sign priv
          (canonicalString "post" "/users/bob/inbox" "remote.example"
            (toString (0 : Int)) (sha256Base64 "follow-activity")) :=
  digest_binds_exact_body "https://local.example" sampleUserWithKeys
    "remote.example" "/users/bob/inbox" "follow-activity" 0 sampleSignedRequest rfl

/-- Claim C5: the verifier rejects with `staleRequest` exactly when the absolute
difference between the request's Date and the current time exceeds 5 minutes
(given a well-formed Signature header, the earlier verification steps); on a
signed request, a Date 6 minutes in the past is rejected as `staleRequest`
while a Date 4 minutes in the past is accepted when all else is valid. -/
theorem staleRequest_exactly_beyond_5min :
    (∀ (resolve : String → Option Pem) (nowMs : Int) (r : InboundRequest)
      (sh : SignatureHeaderVal) (d : Int),
      r.signatureHeader = some sh →
      (signedHeaderNames.all fun h => sh.headers.contains h) = true →
      r.dateMs = some d →
      (verifyInbound resolve nowMs r = Except.error VerifyError.staleRequest ↔
        clockSkewLimitMs < (nowMs - d).natAbs)) ∧
    (∀ (baseUrl : String) (seed : Nat) (u : User)
      (host path activity : String) (nowMs : Int)
      (resolve : String → Option Pem),
      u.privateKey = some (generateKeyPairSync preSaveKeyOptions seed).privateKey →
      resolve (keyIdOf baseUrl u.username) =
        some (generateKeyPairSync preSaveKeyOptions seed).publicKey →
      (∀ sr, sendSignedRequest baseUrl u host path activity
          (nowMs - 6 * 60 * 1000) = Except.ok sr →
        verifyInbound resolve nowMs (deliver sr) =
          Except.error VerifyError.staleRequest) ∧
      (∀ sr, sendSignedRequest baseUrl u host path activity
          (nowMs - 4 * 60 * 1000) = Except.ok sr →
        verifyInbound resolve nowMs (deliver sr) =
          Except.ok (keyIdOf baseUrl u.username))) := by
  constructor
  · intro resolve nowMs r sh d hsig hall hdate
    simp only [verifyInbound, hsig, hall, hdate, Bool.not_true, Bool.false_eq_true,
      if_false]
    by_cases hsk : clockSkewLimitMs < (nowMs - d).natAbs
    · simp [hsk]
    · simp only [hsk, if_false, iff_false]
      intro hv
      split at hv
      · simp at hv
      · split at hv
        · simp at hv
        · split at hv
          · simp at hv
          · split at hv
            · simp at hv
            · simp at hv
  · intro baseUrl seed u host path activity nowMs resolve hpriv hres
    constructor
    · intro sr hok
      rw [sendSignedRequest_ok baseUrl seed u host path activity
        (nowMs - 6 * 60 * 1000) hpriv] at hok
      simp only [Except.ok.injEq] at hok
      subst hok
      have hd : nowMs - (nowMs - 6 * 60 * 1000) = (360000 : Int) := by ring
      simp only [verifyInbound, deliver, Bool.not_true, Bool.false_eq_true, if_false,
        hd]
      have hsk : clockSkewLimitMs < ((360000 : Int)).natAbs := by decide
      simp [hsk, signedHeaderNames]
      intro hle
      exact absurd hle (by decide)
    · intro sr hok
      obtain ⟨sr2, hok2, hv2⟩ := sendSigned_verify_roundtrip baseUrl seed u host
        path activity (nowMs - 4 * 60 * 1000) nowMs resolve hpriv hres
        (by
          have hd : nowMs - (nowMs - 4 * 60 * 1000) = (240000 : Int) := by ring
          rw [hd]
          decide)
      rw [hok] at hok2
      have hss : sr = sr2 := Except.ok.inj hok2
      rw [hss]
      exact hv2

/-- Witness for C5: the sample signed request (date 0) is rejected as stale
when verified at time 360000 (6 minutes later) and accepted at time 240000
(4 minutes later). -/
theorem staleRequest_exactly_beyond_5min_witness :
    verifyInbound sampleResolve 360000 (deliver sampleSignedRequest) =
      Except.error VerifyError.staleRequest ∧
    verifyInbound sampleResolve 240000 (deliver sampleSignedRequest) =
      Except.ok (keyIdOf "https://local.example" "alice") := by
  constructor
  · exact (staleRequest_exactly_beyond_5min.2 "https://local.example" 7
      sampleUserWithKeys "remote.example" "/users/bob/inbox" "follow-activity"
      360000 sampleResolve rfl rfl).1 sampleSignedRequest (by rfl)
  · exact (staleRequest_exactly_beyond_5min.2 "https://local.example" 7
      sampleUserWithKeys "remote.example" "/users/bob/inbox" "follow-activity"
      240000 sampleResolve rfl rfl).2 sampleSignedRequest (by rfl)

/-- Claim C8: delivery outcome policy — a 2xx response transitions the task to
`delivered`; a network error, timeout, 5xx or 429 transitions it to
`retryScheduled` with exponential backoff (`base × 2^attempt`, capped) until
the maximum attempt count, after which it becomes `abandoned`; any other
response code (the non-transient 4xx family) transitions it immediately to
`abandoned` with no retry (attempt count untouched). -/
theorem delivery_outcome_policy :
    ∀ (maxAttempts base cap : Nat) (nowMs : Int) (t : DeliveryTask) (code : Nat),
      (200 ≤ code → code < 300 →
        applyDeliveryOutcome maxAttempts base cap nowMs t
            (AttemptOutcome.response code) =
          { t with status := DeliveryStatus.delivered }) ∧
      ((500 ≤ code ∧ code < 600) ∨ code = 429 →
        applyDeliveryOutcome maxAttempts base cap nowMs t
            (AttemptOutcome.response code) =
          retryOrAbandon maxAttempts base cap nowMs t) ∧
      applyDeliveryOutcome maxAttempts base cap nowMs t
          AttemptOutcome.networkError =
        retryOrAbandon maxAttempts base cap nowMs t ∧
      applyDeliveryOutcome maxAttempts base cap nowMs t AttemptOutcome.timeout =
        retryOrAbandon maxAttempts base cap nowMs t ∧
      (t.attempt + 1 < maxAttempts →
        retryOrAbandon maxAttempts base cap nowMs t =
          { t with attempt := t.attempt + 1
                   status := DeliveryStatus.retryScheduled
                   nextAttemptAt :=
                     nowMs + ((min (base * 2 ^ (t.attempt + 1)) cap : Nat) : Int) }) ∧
      (maxAttempts ≤ t.attempt + 1 →
        retryOrAbandon maxAttempts base cap nowMs t =
          { t with attempt := t.attempt + 1, status := DeliveryStatus.abandoned }) ∧
      (400 ≤ code → code < 500 → code ≠ 429 →
        applyDeliveryOutcome maxAttempts base cap nowMs t
            (AttemptOutcome.response code) =
          { t with status := DeliveryStatus.abandoned }) := by
  intro maxAttempts base cap nowMs t code
  refine ⟨?_, ?_, rfl, rfl, ?_, ?_, ?_⟩
  · intro h1 h2
    have h2xx : is2xx code = true := by
      simp only [is2xx, Bool.and_eq_true, decide_eq_true_eq]
      omega
    simp [applyDeliveryOutcome, h2xx]
  · intro h
    have h2xx : is2xx code = false := by
      simp only [is2xx, Bool.and_eq_true, decide_eq_true_eq]
      rcases h with h5 | h4
      · simp only [Bool.and_eq_false_iff, decide_eq_false_iff_not]
        omega
      · simp only [Bool.and_eq_false_iff, decide_eq_false_iff_not]
        omega
    have htr : isTransientCode code = true := by
      simp only [isTransientCode, Bool.or_eq_true, Bool.and_eq_true,
        decide_eq_true_eq, beq_iff_eq]
      rcases h with h5 | h4
      · left; omega
      · right; omega
    simp [applyDeliveryOutcome, h2xx, htr]
  · intro h
    simp [retryOrAbandon, backoffMs, Nat.not_le.mpr h]
  · intro h
    simp [retryOrAbandon, h]
  · intro h1 h2 h3
    have h2xx : is2xx code = false := by
      simp only [is2xx, Bool.and_eq_false_iff, decide_eq_false_iff_not]
      omega
    have htr : isTransientCode code = false := by
      simp only [isTransientCode, Bool.or_eq_false_iff, Bool.and_eq_false_iff,
        decide_eq_false_iff_not, beq_eq_false_iff_ne, ne_eq]
      constructor
      · omega
      · exact h3
    simp [applyDeliveryOutcome, h2xx, htr]

/-- Witness for C8 at a concrete pending task: 200 delivers, 503 schedules a
retry with backoff 1000 × 2¹ = 2000, and 404 abandons immediately. -/
theorem delivery_outcome_policy_witness :
    applyDeliveryOutcome 5 1000 60000 0 sampleTask (AttemptOutcome.response 200) =
      { sampleTask with status := DeliveryStatus.delivered } ∧
    applyDeliveryOutcome 5 1000 60000 0 sampleTask (AttemptOutcome.response 503) =
      { sampleTask with attempt := 1
                        status := DeliveryStatus.retryScheduled
                        nextAttemptAt := 2000 } ∧
    applyDeliveryOutcome 5 1000 60000 0 sampleTask (AttemptOutcome.response 404) =
      { sampleTask with status := DeliveryStatus.abandoned } := by
  refine ⟨(delivery_outcome_policy 5 1000 60000 0 sampleTask 200).1 (by decide)
      (by decide), ?_,
    (delivery_outcome_policy 5 1000 60000 0 sampleTask 404).2.2.2.2.2.2
      (by decide) (by decide) (by decide)⟩
  have h1 := (delivery_outcome_policy 5 1000 60000 0 sampleTask 503).2.1
    (Or.inl (by decide))
  have h2 := (delivery_outcome_policy 5 1000 60000 0 sampleTask 503).2.2.2.2.1
    (by decide)
  rw [h1, h2]
  decide

/-- Claim C9: `handleLike` is a frame-preserving toggle — the feed keeps its
length; every post whose `_id` differs from `postId` is unchanged; the post
with `_id = postId` has the current user toggled in its `likes` array
(removed when present, appended when absent) and every other field
unchanged. -/
theorem handleLike_toggles_only_target :
    ∀ (userId postId : String) (feed : List Post),
      (handleLikeSetFeed userId postId feed).length = feed.length ∧
      ∀ (i : Nat) (p : Post), feed[i]? = some p →
        (p._id ≠ postId → (handleLikeSetFeed userId postId feed)[i]? = some p) ∧
        (p._id = postId →
          ∃ p', (handleLikeSetFeed userId postId feed)[i]? = some p' ∧
            p'._id = p._id ∧ p'.author = p.author ∧ p'.caption = p.caption ∧
            p'.image = p.image ∧ p'.imageUrl = p.imageUrl ∧
            p'.createdAt = p.createdAt ∧
            (userId ∈ (p.likes).getD [] →
              p'.likes =
                some (((p.likes).getD []).filter (fun i => i ≠ userId)) ∧
              userId ∉ (p'.likes).getD []) ∧
            (userId ∉ (p.likes).getD [] →
              p'.likes = some ((p.likes).getD [] ++ [userId]) ∧
              userId ∈ (p'.likes).getD [])) := by
  intro userId postId feed
  constructor
  · simp [handleLikeSetFeed]
  · intro i p hip
    constructor
    · intro hne
      simp only [handleLikeSetFeed, List.getElem?_map, hip, Option.map_some']
      rw [if_neg hne]
    · intro heq
      simp only [handleLikeSetFeed, List.getElem?_map, hip, Option.map_some']
      rw [if_pos heq]
      by_cases hmem : userId ∈ (p.likes).getD []
      · have hc : ((p.likes).getD []).contains userId = true := by
          simpa [List.elem_iff] using hmem
        refine ⟨_, rfl, rfl, rfl, rfl, rfl, rfl, rfl, ?_, ?_⟩
        · intro _
          simp only [hc, if_true]
          constructor
          · trivial
          · intro hin
            simp only [Option.getD_some, List.mem_filter, decide_eq_true_eq] at hin
            exact hin.2 rfl
        · intro hnm
          exact absurd hmem hnm
      · have hc : ((p.likes).getD []).contains userId = false := by
          simp only [Bool.eq_false_iff, ne_eq]
          intro hcc
          exact absurd (List.elem_iff.mp hcc) hmem
        refine ⟨_, rfl, rfl, rfl, rfl, rfl, rfl, rfl, ?_, ?_⟩
        · intro hm
          exact absurd hm hmem
        · intro _
          simp only [hc, if_false]
          exact ⟨rfl, by simp⟩

/-- Witness for C9 on a concrete two-post feed: liking `p1` as `u1` removes
`u1` from its likes and leaves `p2` untouched. -/
theorem handleLike_toggles_only_target_witness :
    (handleLikeSetFeed "u1" "p1" sampleFeed).length = sampleFeed.length ∧
    (handleLikeSetFeed "u1" "p1" sampleFeed)[1]? = sampleFeed[1]? ∧
    ∃ p', (handleLikeSetFeed "u1" "p1" sampleFeed)[0]? = some p' ∧
      p'.likes = some ["u2"] := by
  obtain ⟨hlen, hidx⟩ := handleLike_toggles_only_target "u1" "p1" sampleFeed
  refine ⟨hlen, ?_, ?_⟩
  · have h2 := (hidx 1 (sampleFeed.get ⟨1, by decide⟩) (by decide)).1 (by decide)
    rw [h2]
    decide
  · obtain ⟨p', hp', -, -, -, -, -, -, hrm, -⟩ :=
      (hidx 0 (sampleFeed.get ⟨0, by decide⟩) (by decide)).2 (by decide)
    refine ⟨p', hp', ?_⟩
    have := (hrm (by decide)).1
    rw [this]
    decide

/-- Witness for the amended claim C10 at a concrete string-item collection. -/
theorem fetchCollection_total_items_nonnull_witness :
    isNullJs (Js.str "https://remote.example/users/bob") = false ∧
    (isStrJs (Js.str "https://remote.example/users/bob") = true ∨
      truthy (Js.str "https://remote.example/users/bob") = true) := by
  exact fetchCollection_total_items_nonnull.2 stringItemCollection
    (Js.str "https://remote.example/users/bob") (List.Mem.head [])

end Fediverse
